import Mathlib

/-!
Shallow embedding of the Location-Tracker backend, src/backend/app.py.

Time is modelled as a rational number passed explicitly wherever the code
reads the clock.  Coordinates are rationals; each coordinate slot keeps the
two-field shape of the Python dicts, each field possibly unset.  The geopy
geodesic distance is an external library call and is modelled as a function
parameter, exactly as the code defers the computation to the library.
The session store is an association list keyed by the session id, with
dict-like semantics: insertion replaces, deletion removes the key entirely.
-/

namespace LocationTracker

/-- A coordinate slot, mirroring the Python dicts
destination_coords and current_coords: each of lat and lng may be None. -/
structure Coords where
  lat : Option ℚ
  lng : Option ℚ
deriving DecidableEq

/-- One entry of the in-memory session store:
sessions[session_id] = ⟨username, expires_at⟩. -/
structure SessionData where
  username : String
  expires_at : ℚ
deriving DecidableEq

/-- The in-memory session store, a dict from session id to session data. -/
def Sessions := List (String × SessionData)

instance : DecidableEq Sessions := by
  unfold Sessions; infer_instance

/-- Dict membership and indexing: first (unique) entry with the given key. -/
def sessionsLookup (sid : String) : Sessions → Option SessionData
  | [] => none
  | (k, v) :: rest => if k = sid then some v else sessionsLookup sid rest

/-- del sessions[session_id]: the key is removed entirely. -/
def sessionsErase (sid : String) (ss : Sessions) : Sessions :=
  ss.filter (fun e => decide (e.1 ≠ sid))

/-- DEFAULT_TIMEOUT = 300 (seconds). -/
def DEFAULT_TIMEOUT : ℚ := 300

/-- SPECIAL_TIMEOUT = 7200 (seconds), used for the reserved username. -/
def SPECIAL_TIMEOUT : ℚ := 7200

/-- compute_distance from app.py: returns False when any component of either
coordinate dict is None, otherwise asks the geodesic library for the distance
in meters between the two points and compares it to 2000 inclusively.  The
library is the geodesic parameter. -/
def compute_distance (geodesic : ℚ × ℚ → ℚ × ℚ → ℚ)
    (coord1 coord2 : Coords) : Bool :=
  match coord1.lat, coord1.lng, coord2.lat, coord2.lng with
  | some la1, some ln1, some la2, some ln2 =>
      decide (geodesic (la1, ln1) (la2, ln2) ≤ 2000)
  | _, _, _, _ => false

/-- verify_session from app.py.  Takes the current clock reading, the cookie
(None when the cookie is absent; the empty string is falsy in Python and is
rejected the same way), and the store.  Returns the possibly-updated store
and the username on success, none on a 401. -/
def verify_session (now : ℚ) (sid? : Option String) (ss : Sessions) :
    Sessions × Option String :=
  match sid? with
  | none => (ss, none)
  | some sid =>
    if sid = "" then (ss, none)
    else
      match sessionsLookup sid ss with
      | none => (ss, none)
      | some sd =>
        if sd.expires_at < now then (sessionsErase sid ss, none)
        else (ss, some sd.username)

/-- Outcome of GET /session_info. -/
inductive InfoResult where
  | unauth
  | ok (username : String) (remaining : ℚ)
deriving DecidableEq

/-- get_session_info from app.py: inline validation that fails (and evicts)
when remaining = expires_at - now is ≤ 0, otherwise reports the username and
the remaining seconds. -/
def get_session_info (now : ℚ) (sid? : Option String) (ss : Sessions) :
    Sessions × InfoResult :=
  match sid? with
  | none => (ss, .unauth)
  | some sid =>
    if sid = "" then (ss, .unauth)
    else
      match sessionsLookup sid ss with
      | none => (ss, .unauth)
      | some sd =>
        let remaining := sd.expires_at - now
        if remaining ≤ 0 then (sessionsErase sid ss, .unauth)
        else (ss, .ok sd.username remaining)

/-- Outcome of POST /login. -/
inductive LoginResult where
  | usernameTooShort
  | invalidCredentials
  | success (username : String)
deriving DecidableEq

/-- username[::-1]. -/
def strReverse (s : String) : String := String.mk s.data.reverse

/-- login from app.py.  newToken stands for the fresh uuid4 session id and
now for the clock reading at creation.  On success the store gains the entry
⟨username, now + timeout⟩ under newToken. -/
def login (newToken : String) (now : ℚ) (username password : String)
    (ss : Sessions) : Sessions × LoginResult :=
  if username.length < 5 then (ss, .usernameTooShort)
  else if password ≠ strReverse username then (ss, .invalidCredentials)
  else
    let timeout := if username = "jollypolly" then SPECIAL_TIMEOUT else DEFAULT_TIMEOUT
    let expires_at := now + timeout
    ((newToken, ⟨username, expires_at⟩) :: ss, .success username)

/-- The process-wide mutable state of the backend: the session store, the two
coordinate slots, and a counter of how many times make_twilio_call has been
invoked (the alert dispatcher trigger count). -/
structure ServerState where
  sessions : Sessions
  destination_coords : Coords
  current_coords : Coords
  twilio_calls : ℕ
deriving DecidableEq

/-- Outcome of POST /track_location. -/
inductive TrackResult where
  | unauth
  | alert
  | success
deriving DecidableEq

/-- track_location from app.py.  The verify_session dependency runs first;
on 401 the handler body never runs.  Otherwise current_coords is overwritten
with data.get("latitude") / data.get("longitude") (absent keys give None),
and when compute_distance holds, make_twilio_call is invoked. -/
def track_location (geodesic : ℚ × ℚ → ℚ × ℚ → ℚ) (now : ℚ)
    (sid? : Option String) (lat? lng? : Option ℚ) (st : ServerState) :
    ServerState × TrackResult :=
  match verify_session now sid? st.sessions with
  | (ss, none) => ({ st with sessions := ss }, .unauth)
  | (ss, some _) =>
    let cur : Coords := ⟨lat?, lng?⟩
    let st1 := { st with sessions := ss, current_coords := cur }
    if compute_distance geodesic cur st1.destination_coords then
      ({ st1 with twilio_calls := st1.twilio_calls + 1 }, .alert)
    else (st1, .success)

/-- Outcome of the upstream place-details request as seen by set_destination:
fail covers a transport or JSON error and a payload missing any of result,
geometry or location; location carries the location dict, whose lat and lng
keys may individually be absent. -/
inductive LookupOutcome where
  | fail
  | location (lat? lng? : Option ℚ)
deriving DecidableEq

/-- Outcome of POST /set_destination. -/
inductive SetDestResult where
  | unauth
  | mapError
  | success (dest : Coords)
deriving DecidableEq

/-- set_destination from app.py.  After authentication, the handler extracts
res.result.geometry.location and builds the dict for the update from its lat
and lng keys; any exception along the way (including a missing key) is caught
and surfaced as a 500, before destination_coords is touched — the update dict
is fully built before the update call, so no partial write can happen. -/
def set_destination (lookup : LookupOutcome) (now : ℚ) (sid? : Option String)
    (st : ServerState) : ServerState × SetDestResult :=
  match verify_session now sid? st.sessions with
  | (ss, none) => ({ st with sessions := ss }, .unauth)
  | (ss, some _) =>
    let st1 := { st with sessions := ss }
    match lookup with
    | .fail => (st1, .mapError)
    | .location lat? lng? =>
      match lat?, lng? with
      | some la, some ln =>
        let d : Coords := ⟨some la, some ln⟩
        ({ st1 with destination_coords := d }, .success d)
      | _, _ => (st1, .mapError)

/-- Helper: compute_distance is false whenever any component is unset. -/
lemma compute_distance_of_unset (geodesic : ℚ × ℚ → ℚ × ℚ → ℚ)
    (c1 c2 : Coords)
    (h : c1.lat = none ∨ c1.lng = none ∨ c2.lat = none ∨ c2.lng = none) :
    compute_distance geodesic c1 c2 = false := by
  obtain ⟨la1, ln1⟩ := c1
  obtain ⟨la2, ln2⟩ := c2
  simp only [compute_distance]
  rcases h with h | h | h | h <;> simp_all

/-- Helper: after erasing a key, lookup of that key fails. -/
lemma sessionsLookup_erase (sid : String) (ss : Sessions) :
    sessionsLookup sid (sessionsErase sid ss) = none := by
  induction ss with
  | nil => rfl
  | cons e rest ih =>
    obtain ⟨k, v⟩ := e
    by_cases hk : k = sid
    · simpa [sessionsErase, hk] using ih
    · simpa [sessionsErase, sessionsLookup, hk] using ih

/-- C1: for every pair of fully set coordinates, the geofence evaluator
returns true if and only if the geodesic distance in meters between the two
points is at most 2000; the threshold is inclusive. -/
theorem C1_has_arrived_iff_within_threshold
    (geodesic : ℚ × ℚ → ℚ × ℚ → ℚ) (c1 c2 : Coords)
    (la1 ln1 la2 ln2 : ℚ)
    (h1 : c1.lat = some la1) (h2 : c1.lng = some ln1)
    (h3 : c2.lat = some la2) (h4 : c2.lng = some ln2) :
    compute_distance geodesic c1 c2 = true ↔
      geodesic (la1, ln1) (la2, ln2) ≤ 2000 := by
  obtain ⟨a, b⟩ := c1
  obtain ⟨c, d⟩ := c2
  simp only at h1 h2 h3 h4
  subst h1 h2 h3 h4
  simp [compute_distance]

/-- C1 witness: identical coordinates under a geodesic reporting distance 0
are within the threshold; a pair at exactly 2000 meters is too. -/
theorem C1_witness :
    compute_distance (fun _ _ => 0) ⟨some 0, some 0⟩ ⟨some 0, some 0⟩ = true
    ∧ compute_distance (fun _ _ => 2000) ⟨some 1, some 2⟩ ⟨some 3, some 4⟩ = true := by
  constructor
  · exact (C1_has_arrived_iff_within_threshold (fun _ _ => 0)
      ⟨some 0, some 0⟩ ⟨some 0, some 0⟩ 0 0 0 0 rfl rfl rfl rfl).mpr (by norm_num)
  · exact (C1_has_arrived_iff_within_threshold (fun _ _ => 2000)
      ⟨some 1, some 2⟩ ⟨some 3, some 4⟩ 1 2 3 4 rfl rfl rfl rfl).mpr (by norm_num)

/-- C6: whenever the destination slot, the current slot, or both have any
unset component, geofence evaluation deterministically returns false; the
function is total, so no error is raised. -/
theorem C6_unset_coordinate_not_arrived
    (geodesic : ℚ × ℚ → ℚ × ℚ → ℚ) (c1 c2 : Coords)
    (h : c1.lat = none ∨ c1.lng = none ∨ c2.lat = none ∨ c2.lng = none) :
    compute_distance geodesic c1 c2 = false :=
  compute_distance_of_unset geodesic c1 c2 h

/-- C6 witness: an unset current latitude yields not-arrived. -/
theorem C6_witness :
    compute_distance (fun _ _ => 0) ⟨none, some 0⟩ ⟨some 0, some 0⟩ = false :=
  C6_unset_coordinate_not_arrived (fun _ _ => 0)
    ⟨none, some 0⟩ ⟨some 0, some 0⟩ (Or.inl rfl)

/-- C4: a username shorter than 5 characters fails with UsernameTooShort
regardless of the password (the length rule is checked first); otherwise
login succeeds exactly when the password is the reverse of the username and
fails with InvalidCredentials otherwise.  Failed logins leave the store
unchanged. -/
theorem C4_login_credential_rules (newToken : String) (now : ℚ)
    (username password : String) (ss : Sessions) :
    (username.length < 5 →
      login newToken now username password ss = (ss, .usernameTooShort))
    ∧ (5 ≤ username.length →
        (password = strReverse username →
          (login newToken now username password ss).2 = .success username)
        ∧ (password ≠ strReverse username →
          login newToken now username password ss = (ss, .invalidCredentials))) := by
  refine ⟨fun hshort => ?_, fun hlen => ⟨fun hpw => ?_, fun hpw => ?_⟩⟩
  · simp [login, hshort]
  · simp [login, Nat.not_lt.mpr hlen, hpw]
  · simp [login, Nat.not_lt.mpr hlen, hpw]

/-- C4 witness: a 3-character username is rejected as too short even with the
matching reversed password; a 5-character username succeeds exactly with the
reversed password. -/
theorem C4_witness :
    login "tk" 0 "bob" "bob" [] = ([], .usernameTooShort)
    ∧ (login "tk" 0 "alice" "ecila" []).2 = .success "alice"
    ∧ login "tk" 0 "alice" "alice" [] = ([], .invalidCredentials) :=
  ⟨(C4_login_credential_rules "tk" 0 "bob" "bob" []).1 (by decide),
   ((C4_login_credential_rules "tk" 0 "alice" "ecila" []).2 (by decide)).1 (by decide),
   ((C4_login_credential_rules "tk" 0 "alice" "alice" []).2 (by decide)).2 (by decide)⟩

/-- C5: every successful login stores, under the fresh token, a session whose
expires_at is the creation time plus 7200 seconds when the identity is
exactly jollypolly and plus 300 seconds for every other identity. -/
theorem C5_session_ttl (newToken : String) (now : ℚ)
    (username password : String) (ss : Sessions)
    (hlen : 5 ≤ username.length) (hpw : password = strReverse username) :
    (username = "jollypolly" →
      sessionsLookup newToken (login newToken now username password ss).1 =
        some ⟨username, now + 7200⟩)
    ∧ (username ≠ "jollypolly" →
      sessionsLookup newToken (login newToken now username password ss).1 =
        some ⟨username, now + 300⟩) := by
  constructor <;> intro hj <;>
    simp [login, Nat.not_lt.mpr hlen, hpw, hj, sessionsLookup,
      SPECIAL_TIMEOUT, DEFAULT_TIMEOUT]

/-- C5 witness: jollypolly gets a 7200-second TTL, alice a 300-second TTL. -/
theorem C5_witness :
    sessionsLookup "t1" (login "t1" 0 "jollypolly" "yllopylloj" []).1 =
      some ⟨"jollypolly", 0 + 7200⟩
    ∧ sessionsLookup "t2" (login "t2" 0 "alice" "ecila" []).1 =
      some ⟨"alice", 0 + 300⟩ :=
  ⟨(C5_session_ttl "t1" 0 "jollypolly" "yllopylloj" [] (by decide) (by decide)).1 rfl,
   (C5_session_ttl "t2" 0 "alice" "ecila" [] (by decide) (by decide)).2 (by decide)⟩

/-- C7: a token present in the store whose expires_at lies strictly in the
past is treated as absent by both read paths — session validation and the
remaining-TTL query each fail — and the read evicts the entry, so a
subsequent lookup of the token finds nothing. -/
theorem C7_expired_entry_treated_absent_and_evicted
    (now : ℚ) (sid : String) (ss : Sessions) (sd : SessionData)
    (hsid : sid ≠ "") (hlk : sessionsLookup sid ss = some sd)
    (hexp : sd.expires_at < now) :
    verify_session now (some sid) ss = (sessionsErase sid ss, none)
    ∧ get_session_info now (some sid) ss = (sessionsErase sid ss, .unauth)
    ∧ sessionsLookup sid (sessionsErase sid ss) = none := by
  refine ⟨?_, ?_, sessionsLookup_erase sid ss⟩
  · simp [verify_session, hsid, hlk, hexp]
  · have hrem : sd.expires_at - now ≤ 0 := by linarith
    simp [get_session_info, hsid, hlk, hrem]

/-- C7 witness: a concrete store holding a token expired one second ago fails
both reads and ends with the entry gone. -/
theorem C7_witness :
    verify_session 101 (some "tk") [("tk", ⟨"alice", 100⟩)] = ([], none)
    ∧ get_session_info 101 (some "tk") [("tk", ⟨"alice", 100⟩)] = ([], .unauth)
    ∧ sessionsLookup "tk"
        (sessionsErase "tk" [("tk", ⟨"alice", 100⟩)]) = none := by
  have h := C7_expired_entry_treated_absent_and_evicted 101 "tk"
    [("tk", ⟨"alice", 100⟩)] ⟨"alice", 100⟩ (by decide) (by decide) (by norm_num)
  have herase : sessionsErase "tk" [("tk", (⟨"alice", 100⟩ : SessionData))] = [] := by
    decide
  exact ⟨by rw [← herase]; exact h.1, by rw [← herase]; exact h.2.1, h.2.2⟩

/-- C2 counterexample: the alerting is not at-most-once per arrival.  With a
valid session, a set destination and a geodesic reporting distance 0, two
consecutive in-range track_location updates each return alert and each invoke
the dispatcher: the call counter reaches 2 within a single arrival. -/
theorem C2_counterexample :
    (track_location (fun _ _ => 0) 0 (some "tk") (some 0) (some 0)
      ⟨[("tk", ⟨"alice", 100⟩)], ⟨some 0, some 0⟩, ⟨none, none⟩, 0⟩).2 = .alert
    ∧ (track_location (fun _ _ => 0) 1 (some "tk") (some 0) (some 0)
        (track_location (fun _ _ => 0) 0 (some "tk") (some 0) (some 0)
          ⟨[("tk", ⟨"alice", 100⟩)], ⟨some 0, some 0⟩, ⟨none, none⟩, 0⟩).1).2 = .alert
    ∧ (track_location (fun _ _ => 0) 1 (some "tk") (some 0) (some 0)
        (track_location (fun _ _ => 0) 0 (some "tk") (some 0) (some 0)
          ⟨[("tk", ⟨"alice", 100⟩)], ⟨some 0, some 0⟩, ⟨none, none⟩, 0⟩).1).1.twilio_calls
      = 2 := by
  refine ⟨?_, ?_, ?_⟩ <;> decide

/-- C2 amended: the dispatcher is triggered on every authenticated in-range
update — each such update increments the call counter by exactly one and
returns alert, with no already-alerted suppression, so n in-range updates
place n calls. -/
theorem C2_alert_on_every_in_range_update
    (geodesic : ℚ × ℚ → ℚ × ℚ → ℚ) (now : ℚ) (sid? : Option String)
    (lat? lng? : Option ℚ) (st : ServerState) (ss : Sessions) (u : String)
    (hauth : verify_session now sid? st.sessions = (ss, some u))
    (hin : compute_distance geodesic ⟨lat?, lng?⟩ st.destination_coords = true) :
    (track_location geodesic now sid? lat? lng? st).1.twilio_calls
      = st.twilio_calls + 1
    ∧ (track_location geodesic now sid? lat? lng? st).2 = .alert := by
  simp [track_location, hauth, hin]

/-- C2 amended witness: one concrete authenticated in-range update places
exactly one call. -/
theorem C2_amended_witness :
    (track_location (fun _ _ => 0) 0 (some "tk") (some 0) (some 0)
      ⟨[("tk", ⟨"alice", 100⟩)], ⟨some 0, some 0⟩, ⟨none, none⟩, 0⟩).1.twilio_calls
      = 0 + 1
    ∧ (track_location (fun _ _ => 0) 0 (some "tk") (some 0) (some 0)
        ⟨[("tk", ⟨"alice", 100⟩)], ⟨some 0, some 0⟩, ⟨none, none⟩, 0⟩).2 = .alert :=
  C2_alert_on_every_in_range_update (fun _ _ => 0) 0 (some "tk")
    (some 0) (some 0) ⟨[("tk", ⟨"alice", 100⟩)], ⟨some 0, some 0⟩, ⟨none, none⟩, 0⟩
    [("tk", ⟨"alice", 100⟩)] "alice" (by decide) (by decide)

/-- C3 counterexample: the session does not become invalid exactly at
expires_at on every read path.  A validation read performed exactly at
expires_at (here now = expires_at = 100) still succeeds, because the code
compares with strict greater-than, contradicting the claim that every read
at t ≥ expires_at fails. -/
theorem C3_counterexample :
    verify_session 100 (some "tk") [("tk", ⟨"alice", 100⟩)]
      = ([("tk", ⟨"alice", 100⟩)], some "alice") := by
  decide

/-- C3 amended: for a token present in the store, session validation fails
exactly when now is strictly greater than expires_at (so it still succeeds
at exactly expires_at), while the remaining-TTL query fails exactly when now
is at or beyond expires_at; every read strictly before expires_at succeeds. -/
theorem C3_expiry_boundaries
    (now : ℚ) (sid : String) (ss : Sessions) (sd : SessionData)
    (hsid : sid ≠ "") (hlk : sessionsLookup sid ss = some sd) :
    ((verify_session now (some sid) ss).2 = some sd.username ↔
      now ≤ sd.expires_at)
    ∧ ((get_session_info now (some sid) ss).2
        = .ok sd.username (sd.expires_at - now) ↔ now < sd.expires_at) := by
  constructor
  · by_cases hexp : sd.expires_at < now
    · simp [verify_session, hsid, hlk, hexp]
    · simp [verify_session, hsid, hlk, hexp]
      linarith [not_lt.mp hexp]
  · by_cases hrem : sd.expires_at - now ≤ 0
    · simp [get_session_info, hsid, hlk, hrem]
      linarith
    · simp [get_session_info, hsid, hlk, hrem]
      linarith [not_le.mp hrem]

/-- C3 amended witness: at one second before expiry both reads succeed; at
exactly expiry, validation still succeeds while the TTL query fails. -/
theorem C3_amended_witness :
    ((verify_session 99 (some "tk") [("tk", ⟨"alice", 100⟩)]).2 = some "alice"
      ↔ (99 : ℚ) ≤ 100)
    ∧ ((get_session_info 100 (some "tk") [("tk", ⟨"alice", 100⟩)]).2
        = .ok "alice" (100 - 100) ↔ (100 : ℚ) < 100) :=
  ⟨(C3_expiry_boundaries 99 "tk" [("tk", ⟨"alice", 100⟩)] ⟨"alice", 100⟩
      (by decide) (by decide)).1,
   (C3_expiry_boundaries 100 "tk" [("tk", ⟨"alice", 100⟩)] ⟨"alice", 100⟩
      (by decide) (by decide)).2⟩

/-- C8: a track_location request whose session check fails — missing,
unknown, or expired token — returns the authentication error and leaves
current_position untouched (and places no call): the handler body never
runs. -/
theorem C8_auth_failure_no_position_mutation
    (geodesic : ℚ × ℚ → ℚ × ℚ → ℚ) (now : ℚ) (sid? : Option String)
    (lat? lng? : Option ℚ) (st : ServerState) (ss : Sessions)
    (hauth : verify_session now sid? st.sessions = (ss, none)) :
    (track_location geodesic now sid? lat? lng? st).1.current_coords
      = st.current_coords
    ∧ (track_location geodesic now sid? lat? lng? st).2 = .unauth
    ∧ (track_location geodesic now sid? lat? lng? st).1.twilio_calls
      = st.twilio_calls := by
  simp [track_location, hauth]

/-- C8 witness: a request with no cookie at all is rejected and the position
slot keeps its prior value. -/
theorem C8_witness :
    (track_location (fun _ _ => 0) 0 none (some 1) (some 2)
      ⟨[], ⟨some 0, some 0⟩, ⟨some 5, some 6⟩, 0⟩).1.current_coords
      = (⟨some 5, some 6⟩ : Coords)
    ∧ (track_location (fun _ _ => 0) 0 none (some 1) (some 2)
        ⟨[], ⟨some 0, some 0⟩, ⟨some 5, some 6⟩, 0⟩).2 = .unauth
    ∧ (track_location (fun _ _ => 0) 0 none (some 1) (some 2)
        ⟨[], ⟨some 0, some 0⟩, ⟨some 5, some 6⟩, 0⟩).1.twilio_calls = 0 :=
  C8_auth_failure_no_position_mutation (fun _ _ => 0) 0 none (some 1) (some 2)
    ⟨[], ⟨some 0, some 0⟩, ⟨some 5, some 6⟩, 0⟩ [] rfl

/-- C9: an authenticated set_destination whose upstream lookup fails, or
returns a payload with any location component missing, answers with the 500
map error and leaves destination_coords exactly as it was — neither
component is partially updated. -/
theorem C9_lookup_failure_leaves_destination
    (lookup : LookupOutcome) (now : ℚ) (sid? : Option String)
    (st : ServerState) (ss : Sessions) (u : String)
    (hauth : verify_session now sid? st.sessions = (ss, some u))
    (hfail : ∀ la ln : ℚ, lookup ≠ .location (some la) (some ln)) :
    (set_destination lookup now sid? st).2 = .mapError
    ∧ (set_destination lookup now sid? st).1.destination_coords
      = st.destination_coords := by
  cases lookup with
  | fail => simp [set_destination, hauth]
  | location lat? lng? =>
    cases lat? with
    | none => simp [set_destination, hauth]
    | some la =>
      cases lng? with
      | none => simp [set_destination, hauth]
      | some ln => exact absurd rfl (hfail la ln)

/-- C9 witness: a payload carrying only a latitude still aborts with the map
error and leaves the previously stored destination intact. -/
theorem C9_witness :
    (set_destination (.location (some 3) none) 0 (some "tk")
      ⟨[("tk", ⟨"alice", 100⟩)], ⟨some 1, some 2⟩, ⟨none, none⟩, 0⟩).2 = .mapError
    ∧ (set_destination (.location (some 3) none) 0 (some "tk")
        ⟨[("tk", ⟨"alice", 100⟩)], ⟨some 1, some 2⟩, ⟨none, none⟩, 0⟩).1.destination_coords
      = (⟨some 1, some 2⟩ : Coords) :=
  C9_lookup_failure_leaves_destination (.location (some 3) none) 0 (some "tk")
    ⟨[("tk", ⟨"alice", 100⟩)], ⟨some 1, some 2⟩, ⟨none, none⟩, 0⟩
    [("tk", ⟨"alice", 100⟩)] "alice" (by decide)
    (fun la ln h => by simp at h)

/-- C10: an authenticated track_location whose body omits latitude or
longitude overwrites the corresponding current_position field with the unset
value — a malformed update can un-set a previously valid position — and the
request deterministically returns success with no call placed. -/
theorem C10_missing_field_unsets_position
    (geodesic : ℚ × ℚ → ℚ × ℚ → ℚ) (now : ℚ) (sid? : Option String)
    (lat? lng? : Option ℚ) (st : ServerState) (ss : Sessions) (u : String)
    (hauth : verify_session now sid? st.sessions = (ss, some u))
    (hmiss : lat? = none ∨ lng? = none) :
    track_location geodesic now sid? lat? lng? st
      = ({ st with sessions := ss, current_coords := ⟨lat?, lng?⟩ }, .success) := by
  have hfar : compute_distance geodesic ⟨lat?, lng?⟩ st.destination_coords = false :=
    compute_distance_of_unset geodesic ⟨lat?, lng?⟩ st.destination_coords
      (by rcases hmiss with h | h <;> simp [h])
  simp [track_location, hauth, hfar]

/-- C10 witness: an update carrying only a longitude un-sets a previously
valid position and the request still answers success. -/
theorem C10_witness :
    track_location (fun _ _ => 0) 0 (some "tk") none (some 7)
      ⟨[("tk", ⟨"alice", 100⟩)], ⟨some 0, some 0⟩, ⟨some 5, some 6⟩, 0⟩
      = (⟨[("tk", ⟨"alice", 100⟩)], ⟨some 0, some 0⟩, ⟨none, some 7⟩, 0⟩, .success) :=
  C10_missing_field_unsets_position (fun _ _ => 0) 0 (some "tk") none (some 7)
    ⟨[("tk", ⟨"alice", 100⟩)], ⟨some 0, some 0⟩, ⟨some 5, some 6⟩, 0⟩
    [("tk", ⟨"alice", 100⟩)] "alice" (by decide) (Or.inl rfl)

end LocationTracker
